import Mathlib

/-!
Shallow embedding of the Phusion Passenger supervisor/spawn-protocol core
(`src/ext/apache2/SpawnManager.h`) and of the downstream HTTP status-line
extractor (`src/ext/nginx/HttpStatusExtractor.h`), with theorems settling
the behavioural claims about them.

Conventions of the embedding:
* `pid = 0` encodes "no helper process" (the C++ member `pid_t pid` with the
  sentinel value 0, as used by `restartServer`, the constructor and the
  destructor).
* Open file descriptors of the parent process are tracked in a list
  `openFds`; `close`/`fclose` remove a descriptor from it, `socketpair` and
  `fopen` prepend the descriptors the environment says they returned.
* Operating-system calls (`socketpair`, `fopen`, `fork`) and the message
  channel exchange are oracles: an environment record says what each call
  returns, and the embedded functions follow the source's control flow on
  those answers.
* C++ exceptions become an `Except`/sum-typed result; `throw` is an early
  return carrying the exception value.
-/

namespace Passenger

/-- Exceptions thrown by the spawn manager and its channel
(`Exceptions.h` hierarchy as used by `SpawnManager.h`):
`IOException`, `SystemException` (message plus `errno` code), and the
nested-class wrapper `SpawnManager::RestartException`, which stores the
causing exception (`m_subexception`). -/
inductive SpawnErr where
  | ioError (message : String)
  | systemError (message : String) (code : Int)
  | restartException (cause : SpawnErr)
deriving Repr, DecidableEq

/-- `SpawnManager::RestartException::getSubException()`: the stored cause,
or `none` when the exception is not a restart wrapper. -/
def SpawnErr.getSubException : SpawnErr → Option SpawnErr
  | .restartException cause => some cause
  | _ => none

/-- Whether an exception is one of the two base kinds (`IOException` or
`SystemException`) rather than a `RestartException` wrapper. -/
def SpawnErr.isBase : SpawnErr → Bool
  | .restartException _ => false
  | _ => true

/-- Modelled from the spec: the Worker Handle (class `Application` of
`Application.h`, not present under `src/`) is constructed from
`(rootPath, pid, descriptor)` and bundles exactly those three values. -/
structure Application where
  appRoot : String
  pid : Int
  listenSocket : Nat
deriving Repr, DecidableEq

/-- The `SpawnManager` data members (`SpawnManager.h`, lines 57-66).
The `MessageChannel channel` member is modelled from the spec as the
descriptor it is bound to, or `none` when unbound; `openFds` is the
embedding's ledger of parent-side open descriptors. -/
structure SpawnManagerState where
  spawnServerCommand : String
  logFile : String
  environment : String
  rubyCommand : String
  channel : Option Nat
  pid : Nat
  serverNeedsRestart : Bool
  openFds : List Nat
deriving Repr, DecidableEq

/-- `close(fd)` / `fclose(handle)` on the parent's descriptor ledger. -/
def closeFd (fds : List Nat) (fd : Nat) : List Nat :=
  fds.filter (fun x => x != fd)

/-- Modelled from the spec: `MessageChannel::close()` releases the local
endpoint; the channel becomes unbound and its descriptor is closed. -/
def SpawnManagerState.closeChannel (s : SpawnManagerState) : SpawnManagerState :=
  match s.channel with
  | none => s
  | some fd => { s with channel := none, openFds := closeFd s.openFds fd }

/-- Oracle for the operating-system calls made by `restartServer`:
what `socketpair` returns (`none` = `-1` failure, otherwise the two fresh
descriptors), the failing call's `errno`, what `fopen(logFile, "a")`
returns (`none` = `NULL`), and what `fork` returns in the parent
(`none` = `-1` failure, `some childPid` on success). -/
structure RestartEnv where
  socketpairResult : Option (Nat × Nat)
  socketpairErrno : Int
  fopenResult : Option Nat
  forkResult : Option Nat
  forkErrno : Int
deriving Repr, DecidableEq

deriving instance DecidableEq for Except

/-- Outcome of one `restartServer` call: the thrown exception or unit,
the post state, and whether a child process was created (`fork` reached
and successful). -/
structure RestartResult where
  result : Except SpawnErr Unit
  state : SpawnManagerState
  childCreated : Bool
deriving Repr, DecidableEq

/-- `SpawnManager::restartServer` from the `pid = fork()` line on
(lines 99-141), in the parent process.  `fd0, fd1` are `fds[0], fds[1]`,
`logFileHandle` is the `FILE *` (as a descriptor) or `none` for `NULL`.
The child branch (`pid == 0`) runs in the child process and does not touch
the parent's state. -/
def forkPhase (s : SpawnManagerState) (fd0 fd1 : Nat) (logFileHandle : Option Nat)
    (env : RestartEnv) : RestartResult :=
  match env.forkResult with
  | none =>
    -- } else if (pid == -1) { close both ends, fclose log if non-NULL, pid = 0, throw
    let s := { s with openFds := closeFd (closeFd s.openFds fd0) fd1 }
    let s :=
      match logFileHandle with
      | some h => { s with openFds := closeFd s.openFds h }
      | none => s
    { result := .error (.systemError "Unable to fork a process" env.forkErrno),
      state := { s with pid := 0 }, childCreated := false }
  | some childPid =>
    -- } else { close(fds[1]); if (!logFile.empty()) fclose; bind channel; clear flag
    let s := { s with pid := childPid }
    let s := { s with openFds := closeFd s.openFds fd1 }
    let s :=
      if s.logFile ≠ "" then
        match logFileHandle with
        | some h => { s with openFds := closeFd s.openFds h }
        | none => s
      else s
    { result := .ok (),
      state := { s with channel := some fd0, serverNeedsRestart := false },
      childCreated := true }

/-- `SpawnManager::restartServer` from the log-file step on (lines 89-97
followed by the fork): open the log file in append mode when a path is
configured, throwing `IOException` when `fopen` returns `NULL`. -/
def logPhase (s : SpawnManagerState) (fd0 fd1 : Nat) (env : RestartEnv) : RestartResult :=
  if s.logFile ≠ "" then
    match env.fopenResult with
    | none =>
      { result := .error (.ioError ("Cannot open log file '" ++ s.logFile ++ "' for writing.")),
        state := s, childCreated := false }
    | some h =>
      forkPhase { s with openFds := h :: s.openFds } fd0 fd1 (some h) env
  else
    forkPhase s fd0 fd1 none env

/-- The entry step of `restartServer` (lines 75-80):
`if (pid != 0) { channel.close(); waitpid(pid, NULL, 0); pid = 0; }`. -/
def reapStep (s : SpawnManagerState) : SpawnManagerState :=
  if s.pid ≠ 0 then { s.closeChannel with pid := 0 } else s

/-- `SpawnManager::restartServer` (lines 74-142): reap a tracked helper,
mark `serverNeedsRestart`, create the socket pair, open the log file,
fork, and in the parent wire up the channel. -/
def restartServer (s : SpawnManagerState) (env : RestartEnv) : RestartResult :=
  match env.socketpairResult with
  | none =>
    { result := .error (.systemError "Cannot create a Unix socket" env.socketpairErrno),
      state := { reapStep s with serverNeedsRestart := true }, childCreated := false }
  | some (fd0, fd1) =>
    logPhase
      { reapStep s with
        serverNeedsRestart := true,
        openFds := fd0 :: fd1 :: (reapStep s).openFds } fd0 fd1 env

/-- The descriptors a given `restartServer` call opens transiently:
the two socket-pair endpoints once `socketpair` succeeds, plus the log
file handle once `fopen` is reached and succeeds. -/
def restartTransients (s : SpawnManagerState) (env : RestartEnv) : List Nat :=
  match env.socketpairResult with
  | none => []
  | some (fd0, fd1) =>
    if s.logFile ≠ "" then
      match env.fopenResult with
      | none => [fd0, fd1]
      | some h => [fd0, fd1, h]
    else [fd0, fd1]

/-- The `SpawnManager` constructor (lines 187-197): store the
configuration, set `pid = 0`, and call `restartServer()`.  The C++ member
`serverNeedsRestart` is not initialised before that call; `restartServer`
assigns it before it is ever read, so the embedding passes `false`
arbitrarily. -/
def SpawnManager.create (spawnServerCommand logFile environment rubyCommand : String)
    (env : RestartEnv) : RestartResult :=
  restartServer
    { spawnServerCommand, logFile, environment, rubyCommand,
      channel := none, pid := 0, serverNeedsRestart := false, openFds := [] } env

/-- The `~SpawnManager` destructor (lines 199-204): when a helper is
tracked, close the channel and reap the process.  The `pid` member is not
cleared. -/
def SpawnManager.destroy (s : SpawnManagerState) : SpawnManagerState :=
  if s.pid ≠ 0 then s.closeChannel else s

/-- The supervisor-state invariant stated by the spec's data model:
`helperPid == none` (`pid = 0`) exactly when the channel is unbound. -/
def invariant (s : SpawnManagerState) : Prop :=
  s.pid = 0 ↔ s.channel = none

instance (s : SpawnManagerState) : Decidable (invariant s) := by
  unfold invariant; infer_instance

/-- C `isspace` on the default locale, as consulted by `atoi`. -/
def isAsciiSpace (c : Char) : Bool :=
  c == ' ' || c == '\t' || c == '\n' || c == '\x0B' || c == '\x0C' || c == '\r'

/-- The digit-accumulation loop of C `atoi`: consume leading decimal
digits, returning the accumulated value at the first non-digit. -/
def atoiLoop : List Char → Int → Int
  | [], acc => acc
  | c :: rest, acc =>
    if c.isDigit then atoiLoop rest (10 * acc + ((c.toNat : Int) - 48)) else acc

/-- C `atoi`, as called by `spawn` on the first response field
(line 251): skip leading whitespace, honour one optional sign, convert
the longest leading run of digits, yielding 0 when there is none. -/
def atoi (str : String) : Int :=
  match str.toList.dropWhile isAsciiSpace with
  | [] => 0
  | c :: rest =>
    if c = '-' then - atoiLoop rest 0
    else if c = '+' then atoiLoop rest 0
    else atoiLoop (c :: rest) 0

/-- Whether a string is a (non-empty, unsigned) decimal numeral. -/
def isDecimalNumeral (str : String) : Bool :=
  !str.isEmpty && str.toList.all Char.isDigit

/-- The value denoted by a decimal numeral, most significant digit
first. -/
def decimalValue (str : String) : Int :=
  str.toList.foldl (fun acc c => 10 * acc + ((c.toNat : Int) - 48)) 0

/-- Modelled from the spec: the possible results of
`MessageChannel::read(args)` (`MessageChannel.h`, not under `src/`) —
an I/O exception, `false` for a clean peer close before any message, or
`true` with the received fields. -/
inductive ReadOutcome where
  | readFailed (e : SpawnErr)
  | endOfStream
  | message (fields : List String)
deriving Repr, DecidableEq

/-- Modelled from the spec: oracle for one request/response exchange over
the channel — whether `channel.write` throws, what `channel.read`
returns, and what `channel.readFileDescriptor` returns (`.ok fd` when
exactly one descriptor was passed, `.error e` when the call throws). -/
structure ExchangeEnv where
  writeError : Option SpawnErr
  readOutcome : ReadOutcome
  fdOutcome : Except SpawnErr Nat
deriving Repr, DecidableEq

/-- Result of one `spawn` call: the returned `ApplicationPtr`, the thrown
exception, or undefined behaviour (`args.front()` on an empty vector). -/
inductive SpawnOutcome where
  | ok (app : Application)
  | err (e : SpawnErr)
  | undefinedFront
deriving Repr, DecidableEq

/-- The `try { ... } catch (const exception &e) { serverNeedsRestart = true; throw; }`
block of `SpawnManager::spawn` (lines 246-258): write the request, read
the response, treat a clean close as "The spawn server has exited
unexpectedly.", parse the first field with `atoi`, receive the passed
descriptor, and build the `Application`; any exception sets
`serverNeedsRestart` before propagating. -/
def doExchange (s : SpawnManagerState) (appRoot user group : String)
    (env : ExchangeEnv) : SpawnOutcome × SpawnManagerState :=
  match env.writeError with
  | some e => (.err e, { s with serverNeedsRestart := true })
  | none =>
    match env.readOutcome with
    | .readFailed e => (.err e, { s with serverNeedsRestart := true })
    | .endOfStream =>
      (.err (.ioError "The spawn server has exited unexpectedly."),
       { s with serverNeedsRestart := true })
    | .message args =>
      match args with
      | [] => (.undefinedFront, s)
      | first :: _ =>
        let pid := atoi first
        match env.fdOutcome with
        | .error e => (.err e, { s with serverNeedsRestart := true })
        | .ok listenSocket => (.ok { appRoot, pid, listenSocket }, s)

/-- `SpawnManager::spawn` (lines 225-259): under the lock, restart the
helper when `serverNeedsRestart` is set — wrapping an `IOException` or
`SystemException` from the restart in a `RestartException` — then drive
one request/response exchange.  The exchange oracle is indexed by attempt
number; the source performs the exchange once, using index 0. -/
def spawn (s : SpawnManagerState) (appRoot user group : String)
    (renv : RestartEnv) (ex : Nat → ExchangeEnv) : SpawnOutcome × SpawnManagerState :=
  if s.serverNeedsRestart then
    let r := restartServer s renv
    match r.result with
    | .error (.ioError m) =>
      (.err (.restartException (.ioError m)), r.state)
    | .error (.systemError m c) =>
      (.err (.restartException (.systemError m c)), r.state)
    | .error e => (.err e, r.state)
    | .ok _ => doExchange r.state appRoot user group (ex 0)
  else
    doExchange s appRoot user group (ex 0)

/-! ### `src/ext/nginx/HttpStatusExtractor.h` -/

/-- `'\x0D'`, the HTTP carriage return. -/
def CR : Char := '\x0D'

/-- `'\x0A'`, the HTTP line feed. -/
def LF : Char := '\x0A'

/-- `std::string::npos` for the 64-bit `size_type`. -/
def npos : Nat := 2 ^ 64 - 1

/-- Wrapping 64-bit unsigned addition (`size_type` arithmetic). -/
def uadd (a b : Nat) : Nat := (a + b) % 2 ^ 64

/-- Wrapping 64-bit unsigned subtraction (`size_type` arithmetic),
defined for operands below `2 ^ 64`. -/
def usub (a b : Nat) : Nat := (a + 2 ^ 64 - b) % 2 ^ 64

/-- `memcmp(buffer.c_str(), pat, pat.length) == 0`: whether `pat` is an
initial segment of the buffer. -/
def listStartsWith : List Char → List Char → Bool
  | _, [] => true
  | [], _ :: _ => false
  | a :: as, b :: bs => a == b && listStartsWith as bs

/-- `std::string::find(pat, start)`: the least index `i ≥ start` at which
`pat` occurs in full, or `none` for `npos`. -/
def findIdx (hay pat : List Char) (start : Nat) : Option Nat :=
  (List.range (hay.length + 1)).find?
    (fun i => decide (start ≤ i) && listStartsWith (hay.drop i) pat)

/-- `std::string::find` with the `npos` sentinel exposed, for the
positions that subsequently flow into `size_type` arithmetic. -/
def findOr (hay pat : List Char) (start : Nat) : Nat :=
  (findIdx hay pat start).getD npos

/-- The `httpStatusCodes` array (lines 37-78): common HTTP status codes
and their reason phrases. -/
def httpStatusCodes : List (List Char × List Char) :=
  [("100".toList, "Continue".toList),
   ("101".toList, "Switching Protocols".toList),
   ("200".toList, "OK".toList),
   ("201".toList, "Created".toList),
   ("202".toList, "Accepted".toList),
   ("203".toList, "Non-Authoritative Information".toList),
   ("204".toList, "No Content".toList),
   ("205".toList, "Reset Content".toList),
   ("206".toList, "Partial Content".toList),
   ("300".toList, "Multiple Choices".toList),
   ("301".toList, "Moved Permanently".toList),
   ("302".toList, "Found".toList),
   ("303".toList, "See Other".toList),
   ("304".toList, "Not Modified".toList),
   ("305".toList, "Use Proxy".toList),
   ("307".toList, "Temporary Redirect".toList),
   ("400".toList, "Bad Request".toList),
   ("401".toList, "Unauthorized".toList),
   ("402".toList, "Payment Required".toList),
   ("403".toList, "Forbidden".toList),
   ("404".toList, "Not Found".toList),
   ("405".toList, "Method Not Allowed".toList),
   ("406".toList, "Not Acceptable".toList),
   ("407".toList, "Proxy Authentication Required".toList),
   ("408".toList, "Request Timeout".toList),
   ("409".toList, "Conflict".toList),
   ("410".toList, "Gone".toList),
   ("411".toList, "Length Required".toList),
   ("412".toList, "Precondition Failed".toList),
   ("413".toList, "Request Entity Too Large".toList),
   ("414".toList, "Request-URI Too Large".toList),
   ("415".toList, "Unsupported Media Type".toList),
   ("416".toList, "Requested Range Not Satisfiable".toList),
   ("417".toList, "Expectation Failed".toList),
   ("500".toList, "Internal Server Error".toList),
   ("501".toList, "Not Implemented".toList),
   ("502".toList, "Bad Gateway".toList),
   ("503".toList, "Service Unavailable".toList),
   ("504".toList, "Gateway Timeout".toList),
   ("505".toList, "HTTP Version Not Supported".toList)]

/-- `httpStatusCodesMap.find(key)` (line 142): look the three-character
code up among the known status codes. -/
def lookupStatus (key : List Char) : Option (List Char × List Char) :=
  httpStatusCodes.find? (fun p => p.1 == key)

/-- `"Status: "`, the header name searched for by `extractStatusLine`. -/
def statusHeaderName : List Char := "Status: ".toList

/-- `"\r\n"`. -/
def httpCrlf : List Char := [CR, LF]

/-- `"\r\nStatus: "`. -/
def crlfStatusHeader : List Char := CR :: LF :: statusHeaderName

/-- The pure core of `HttpStatusExtractor::extractStatusLine`
(lines 114-157): locate a `Status:` header in the buffer, and when found
rewrite the status line (normalising it through the status-code table
when the three-digit code is known); otherwise keep the previous status
line.  Returns the C++ method's boolean together with the new
`statusLine` value.  Positions use `size_type` wrapping arithmetic, so a
failed CRLF search after a found header start behaves like the source's
`npos + 2`. -/
def computeStatusLine (buffer statusLine0 : List Char) : Bool × List Char :=
  let startNewline : Option (Nat × Nat) :=
    if buffer.length > statusHeaderName.length
        && listStartsWith buffer statusHeaderName then
      -- Status line starts at the beginning of the header.
      some (statusHeaderName.length, uadd (findOr buffer httpCrlf 0) 2)
    else
      -- Look for "\r\nStatus: "; start_pos == npos when absent.
      match findIdx buffer crlfStatusHeader 0 with
      | some p =>
        let sp := p + 2 + statusHeaderName.length
        some (sp, uadd (findOr buffer httpCrlf sp) 2)
      | none => none
  match startNewline with
  | some (start_pos, newline_pos) =>
    let statusLine := (buffer.drop start_pos).take (usub newline_pos start_pos)
    let statusLine :=
      match lookupStatus (statusLine.take 3) with
      | some codeReason =>
        codeReason.1 ++ ' ' :: (codeReason.2 ++ [CR, LF])
      | none => statusLine
    (true, statusLine)
  | none => (false, statusLine0)

/-- The `HttpStatusExtractor` members (lines 109-112). -/
structure HttpStatusExtractor where
  buffer : List Char
  searchStart : Nat
  fullHeaderReceived : Bool
  statusLine : List Char
deriving Repr, DecidableEq

/-- `HttpStatusExtractor::extractStatusLine` as a state transformer:
only the `statusLine` member is assigned. -/
def extractStatusLine (e : HttpStatusExtractor) : Bool × HttpStatusExtractor :=
  let r := computeStatusLine e.buffer e.statusLine
  (r.1, { e with statusLine := r.2 })

/-- The `HttpStatusExtractor` constructor (lines 160-164). -/
def HttpStatusExtractor.init : HttpStatusExtractor :=
  { buffer := [], searchStart := 0, fullHeaderReceived := false,
    statusLine := "200 OK\r\n".toList }

/-- The scanning loop of `feed` (lines 193-202), operating on the buffer
suffix from `searchStart`: while at least four characters remain
(`searchStart < buffer.size() - 3` with `buffer.size() >= 3`), test for
CR LF CR LF; stop at the first match.  Returns the found position (if
any) and the final value of `searchStart`. -/
def feedLoopAux : List Char → Nat → Option Nat × Nat
  | c0 :: c1 :: c2 :: c3 :: rest, s =>
    if c0 == CR && c1 == LF && c2 == CR && c3 == LF then (some s, s)
    else feedLoopAux (c1 :: c2 :: c3 :: rest) (s + 1)
  | _, s => (none, s)

/-- The `feed` loop applied to the whole buffer at the current
`searchStart`. -/
def feedLoop (buffer : List Char) (s : Nat) : Option Nat × Nat :=
  feedLoopAux (buffer.drop s) s

/-- `HttpStatusExtractor::feed` (lines 188-204): once the full header has
been received, return `true` immediately; otherwise append the data,
scan for the CR LF CR LF header terminator, and on finding it mark the
header received, extract the status line and return `true`. -/
def feed (e : HttpStatusExtractor) (data : List Char) : Bool × HttpStatusExtractor :=
  if e.fullHeaderReceived then
    (true, e)
  else
    let buffer := e.buffer ++ data
    match feedLoop buffer e.searchStart with
    | (some _, s') =>
      (true, (extractStatusLine
        { e with buffer := buffer, searchStart := s', fullHeaderReceived := true }).2)
    | (none, s') =>
      (false, { e with buffer := buffer, searchStart := s' })

/-- `HttpStatusExtractor::getStatusLine` (lines 215-217). -/
def HttpStatusExtractor.getStatusLine (e : HttpStatusExtractor) : List Char :=
  e.statusLine

/-- `HttpStatusExtractor::getBuffer` (lines 222-224). -/
def HttpStatusExtractor.getBuffer (e : HttpStatusExtractor) : List Char :=
  e.buffer

/-! ### Helper lemmas: the restart state machine -/

theorem restartException_ne (e : SpawnErr) : SpawnErr.restartException e ≠ e := by
  induction e with
  | ioError m => exact fun h => SpawnErr.noConfusion h
  | systemError m c => exact fun h => SpawnErr.noConfusion h
  | restartException c ih => exact fun h => ih (SpawnErr.restartException.inj h)

theorem reapStep_channel (s : SpawnManagerState) (h : invariant s) :
    (reapStep s).channel = none := by
  unfold reapStep
  split
  · show s.closeChannel.channel = none
    unfold SpawnManagerState.closeChannel
    cases hc : s.channel <;> simp_all
  · next hp => exact h.mp (by omega)

theorem forkPhase_error_facts (s : SpawnManagerState) (fd0 fd1 : Nat)
    (lh : Option Nat) (env : RestartEnv) (e : SpawnErr)
    (h : (forkPhase s fd0 fd1 lh env).result = .error e) :
    e = .systemError "Unable to fork a process" env.forkErrno ∧
    (forkPhase s fd0 fd1 lh env).state.pid = 0 ∧
    (forkPhase s fd0 fd1 lh env).state.serverNeedsRestart = s.serverNeedsRestart ∧
    (forkPhase s fd0 fd1 lh env).state.channel = s.channel := by
  unfold forkPhase at h ⊢
  cases hf : env.forkResult with
  | none => cases lh <;> simp_all
  | some child => simp_all

theorem reapStep_pid (s : SpawnManagerState) : (reapStep s).pid = 0 := by
  unfold reapStep
  split
  · rfl
  · next h => omega

theorem reapStep_flag (s : SpawnManagerState) :
    (reapStep s).serverNeedsRestart = s.serverNeedsRestart := by
  unfold reapStep SpawnManagerState.closeChannel
  split
  · split <;> rfl
  · rfl

theorem reapStep_logFile (s : SpawnManagerState) :
    (reapStep s).logFile = s.logFile := by
  unfold reapStep SpawnManagerState.closeChannel
  split
  · split <;> rfl
  · rfl

theorem forkPhase_ok_facts (s : SpawnManagerState) (fd0 fd1 : Nat)
    (lh : Option Nat) (env : RestartEnv) (child : Nat)
    (hf : env.forkResult = some child) :
    (forkPhase s fd0 fd1 lh env).result = .ok () ∧
    (forkPhase s fd0 fd1 lh env).state.pid = child ∧
    (forkPhase s fd0 fd1 lh env).state.serverNeedsRestart = false ∧
    (forkPhase s fd0 fd1 lh env).state.channel = some fd0 := by
  unfold forkPhase
  rw [hf]
  refine ⟨rfl, ?_, rfl, rfl⟩
  dsimp only
  cases lh <;> split <;> rfl

theorem logPhase_error_facts (s : SpawnManagerState) (fd0 fd1 : Nat)
    (env : RestartEnv) (e : SpawnErr)
    (h : (logPhase s fd0 fd1 env).result = .error e) :
    e.isBase = true ∧
    ((logPhase s fd0 fd1 env).state.pid = 0 ∨
      (logPhase s fd0 fd1 env).state.pid = s.pid) ∧
    (logPhase s fd0 fd1 env).state.serverNeedsRestart = s.serverNeedsRestart ∧
    (logPhase s fd0 fd1 env).state.channel = s.channel := by
  unfold logPhase at h ⊢
  by_cases hl : s.logFile = ""
  · rw [if_neg (fun hc => hc hl)] at h ⊢
    obtain ⟨he, hp, hfl, hch⟩ := forkPhase_error_facts s fd0 fd1 none env e h
    exact ⟨by rw [he]; rfl, Or.inl hp, hfl, hch⟩
  · rw [if_pos hl] at h ⊢
    cases hfo : env.fopenResult with
    | none =>
      try rw [hfo] at h
      try rw [hfo]
      exact ⟨(Except.error.inj h) ▸ rfl, Or.inr rfl, rfl, rfl⟩
    | some lh =>
      try rw [hfo] at h
      try rw [hfo]
      obtain ⟨he, hp, hfl, hch⟩ := forkPhase_error_facts _ fd0 fd1 (some lh) env e h
      exact ⟨by rw [he]; rfl, Or.inl hp, hfl, hch⟩

theorem forkPhase_invariant (s : SpawnManagerState) (fd0 fd1 : Nat)
    (lh : Option Nat) (env : RestartEnv)
    (hch : s.channel = none) (hpid : s.pid = 0) (hwf : env.forkResult ≠ some 0) :
    invariant (forkPhase s fd0 fd1 lh env).state := by
  cases hf : env.forkResult with
  | none =>
    unfold forkPhase invariant
    try rw [hf]
    cases lh <;> simp [hch]
  | some child =>
    have hc0 : child ≠ 0 := fun h0 => hwf (h0 ▸ hf)
    obtain ⟨-, hp, -, hcha⟩ := forkPhase_ok_facts s fd0 fd1 lh env child hf
    unfold invariant
    rw [hp, hcha]
    simp [hc0]

theorem logPhase_invariant (s : SpawnManagerState) (fd0 fd1 : Nat)
    (env : RestartEnv)
    (hch : s.channel = none) (hpid : s.pid = 0) (hwf : env.forkResult ≠ some 0) :
    invariant (logPhase s fd0 fd1 env).state := by
  unfold logPhase
  by_cases hl : s.logFile = ""
  · rw [if_neg (fun hc => hc hl)]
    exact forkPhase_invariant s fd0 fd1 none env hch hpid hwf
  · rw [if_pos hl]
    cases hfo : env.fopenResult with
    | none => exact ⟨fun _ => hch, fun _ => hpid⟩
    | some lh => exact forkPhase_invariant _ fd0 fd1 (some lh) env hch hpid hwf

theorem restartServer_invariant (s : SpawnManagerState) (env : RestartEnv)
    (hinv : invariant s) (hwf : env.forkResult ≠ some 0) :
    invariant (restartServer s env).state := by
  unfold restartServer
  cases hsp : env.socketpairResult with
  | none => exact ⟨fun _ => reapStep_channel s hinv, fun _ => reapStep_pid s⟩
  | some p =>
    obtain ⟨fd0, fd1⟩ := p
    exact logPhase_invariant _ fd0 fd1 env (reapStep_channel s hinv) (reapStep_pid s) hwf

theorem restartServer_error_facts (s : SpawnManagerState) (env : RestartEnv) (e : SpawnErr)
    (h : (restartServer s env).result = .error e) :
    (restartServer s env).state.serverNeedsRestart = true ∧
    (restartServer s env).state.pid = 0 ∧
    e.isBase = true := by
  unfold restartServer at h ⊢
  cases hsp : env.socketpairResult with
  | none =>
    try rw [hsp] at h
    try rw [hsp]
    exact ⟨rfl, reapStep_pid s, (Except.error.inj h) ▸ rfl⟩
  | some p =>
    obtain ⟨fd0, fd1⟩ := p
    try rw [hsp] at h
    try rw [hsp]
    obtain ⟨hb, hp, hfl, hch⟩ := logPhase_error_facts _ fd0 fd1 env e h
    refine ⟨hfl, ?_, hb⟩
    rcases hp with hp | hp
    · exact hp
    · rw [hp]; exact reapStep_pid s

theorem restartServer_ok_facts (s : SpawnManagerState) (env : RestartEnv)
    (fd0 fd1 child : Nat)
    (hsp : env.socketpairResult = some (fd0, fd1))
    (hfk : env.forkResult = some child)
    (hlog : s.logFile = "" ∨ env.fopenResult ≠ none) :
    (restartServer s env).result = .ok () ∧
    (restartServer s env).state.pid = child ∧
    (restartServer s env).state.serverNeedsRestart = false ∧
    (restartServer s env).state.channel = some fd0 := by
  unfold restartServer
  try rw [hsp]
  unfold logPhase
  dsimp only
  rw [reapStep_logFile]
  by_cases hl : s.logFile = ""
  · rw [if_neg (fun hc => hc hl)]
    exact forkPhase_ok_facts _ fd0 fd1 none env child hfk
  · rw [if_pos hl]
    cases hfo : env.fopenResult with
    | none =>
      rcases hlog with hlog | hlog
      · exact absurd hlog hl
      · exact absurd hfo hlog
    | some lh => exact forkPhase_ok_facts _ fd0 fd1 (some lh) env child hfk

theorem mem_closeFd {l : List Nat} {a b : Nat} :
    a ∈ closeFd l b ↔ a ∈ l ∧ a ≠ b := by
  unfold closeFd
  rw [List.mem_filter]
  simp [bne_iff_ne]

theorem forkPhase_fail_closed (s : SpawnManagerState) (fd0 fd1 : Nat)
    (lh : Option Nat) (env : RestartEnv) (hf : env.forkResult = none) :
    fd0 ∉ (forkPhase s fd0 fd1 lh env).state.openFds ∧
    fd1 ∉ (forkPhase s fd0 fd1 lh env).state.openFds ∧
    (∀ h, lh = some h → h ∉ (forkPhase s fd0 fd1 lh env).state.openFds) := by
  unfold forkPhase
  try rw [hf]
  cases lh with
  | none =>
    refine ⟨fun hmem => ?_, fun hmem => ?_, fun h hh => Option.noConfusion hh⟩ <;>
      · dsimp only at hmem
        rw [mem_closeFd, mem_closeFd] at hmem
        tauto
  | some h =>
    refine ⟨fun hmem => ?_, fun hmem => ?_, fun h' hh => ?_⟩
    · dsimp only at hmem
      rw [mem_closeFd, mem_closeFd, mem_closeFd] at hmem
      tauto
    · dsimp only at hmem
      rw [mem_closeFd, mem_closeFd, mem_closeFd] at hmem
      tauto
    · injection hh with hh2
      subst hh2
      intro hmem
      dsimp only at hmem
      rw [mem_closeFd, mem_closeFd, mem_closeFd] at hmem
      tauto

theorem forkPhase_transients (s : SpawnManagerState) (fd0 fd1 : Nat)
    (lh : Option Nat) (env : RestartEnv)
    (hlh : ∀ h, lh = some h → s.logFile ≠ "") :
    ∀ fd, (fd = fd0 ∨ fd = fd1 ∨ lh = some fd) →
      fd ∈ (forkPhase s fd0 fd1 lh env).state.openFds →
      (forkPhase s fd0 fd1 lh env).state.channel = some fd := by
  intro fd hfd hmem
  cases hf : env.forkResult with
  | none =>
    exfalso
    obtain ⟨h0, h1, hl⟩ := forkPhase_fail_closed s fd0 fd1 lh env hf
    rcases hfd with rfl | rfl | hfd
    · exact h0 hmem
    · exact h1 hmem
    · exact hl fd hfd hmem
  | some child =>
    unfold forkPhase at hmem ⊢
    try rw [hf] at hmem
    try rw [hf]
    rcases hfd with rfl | rfl | hfd
    · rfl
    · exfalso
      dsimp only at hmem
      by_cases hlog : s.logFile = ""
      · rw [if_neg (fun hc => hc hlog)] at hmem
        rw [mem_closeFd] at hmem
        tauto
      · rw [if_pos hlog] at hmem
        cases lh with
        | none =>
          rw [mem_closeFd] at hmem
          tauto
        | some h =>
          rw [mem_closeFd, mem_closeFd] at hmem
          tauto
    · exfalso
      obtain rfl : lh = some fd := hfd
      have hlog : s.logFile ≠ "" := hlh fd rfl
      dsimp only at hmem
      rw [if_pos hlog, mem_closeFd] at hmem
      tauto

theorem doExchange_err_flag (s : SpawnManagerState) (appRoot user group : String)
    (env : ExchangeEnv) (e : SpawnErr)
    (h : (doExchange s appRoot user group env).1 = .err e) :
    (doExchange s appRoot user group env).2.serverNeedsRestart = true := by
  unfold doExchange at h ⊢
  rcases env with ⟨w, ro, fo⟩
  dsimp only at h ⊢
  cases w with
  | some e' => rfl
  | none =>
    cases ro with
    | readFailed e' => rfl
    | endOfStream => rfl
    | message args =>
      cases args with
      | nil => exact absurd h (by simp)
      | cons first rest =>
        cases fo with
        | error e' => rfl
        | ok fd => exact absurd h (by simp)

theorem doExchange_pid_channel (s : SpawnManagerState) (appRoot user group : String)
    (env : ExchangeEnv) :
    (doExchange s appRoot user group env).2.pid = s.pid ∧
    (doExchange s appRoot user group env).2.channel = s.channel := by
  unfold doExchange
  rcases env with ⟨w, ro, fo⟩
  dsimp only
  cases w with
  | some e' => exact ⟨rfl, rfl⟩
  | none =>
    cases ro with
    | readFailed e' => exact ⟨rfl, rfl⟩
    | endOfStream => exact ⟨rfl, rfl⟩
    | message args =>
      cases args with
      | nil => exact ⟨rfl, rfl⟩
      | cons first rest =>
        cases fo with
        | error e' => exact ⟨rfl, rfl⟩
        | ok fd => exact ⟨rfl, rfl⟩

theorem doExchange_ok_eq (s : SpawnManagerState) (appRoot user group first : String)
    (rest : List String) (fd : Nat) (env : ExchangeEnv)
    (hw : env.writeError = none) (hr : env.readOutcome = .message (first :: rest))
    (hf : env.fdOutcome = .ok fd) :
    doExchange s appRoot user group env =
      (.ok { appRoot := appRoot, pid := atoi first, listenSocket := fd }, s) := by
  unfold doExchange
  rw [hw, hr, hf]

theorem doExchange_eof_eq (s : SpawnManagerState) (appRoot user group : String)
    (env : ExchangeEnv)
    (hw : env.writeError = none) (hr : env.readOutcome = .endOfStream) :
    doExchange s appRoot user group env =
      (.err (.ioError "The spawn server has exited unexpectedly."),
       { s with serverNeedsRestart := true }) := by
  unfold doExchange
  rw [hw, hr]

theorem doExchange_empty_eq (s : SpawnManagerState) (appRoot user group : String)
    (env : ExchangeEnv)
    (hw : env.writeError = none) (hr : env.readOutcome = .message []) :
    doExchange s appRoot user group env = (.undefinedFront, s) := by
  unfold doExchange
  rw [hw, hr]

theorem spawn_noRestart_eq (s : SpawnManagerState) (appRoot user group : String)
    (renv : RestartEnv) (ex : Nat → ExchangeEnv)
    (hflag : s.serverNeedsRestart = false) :
    spawn s appRoot user group renv ex = doExchange s appRoot user group (ex 0) := by
  unfold spawn
  rw [hflag]
  rfl

theorem spawn_restartOk_eq (s : SpawnManagerState) (appRoot user group : String)
    (renv : RestartEnv) (ex : Nat → ExchangeEnv)
    (hflag : s.serverNeedsRestart = true)
    (hres : (restartServer s renv).result = .ok ()) :
    spawn s appRoot user group renv ex =
      doExchange (restartServer s renv).state appRoot user group (ex 0) := by
  unfold spawn
  rw [hflag, if_pos rfl]
  dsimp only
  rw [hres]

theorem spawn_restartErr_eq (s : SpawnManagerState) (appRoot user group : String)
    (renv : RestartEnv) (ex : Nat → ExchangeEnv) (e : SpawnErr)
    (hflag : s.serverNeedsRestart = true)
    (hres : (restartServer s renv).result = .error e) :
    spawn s appRoot user group renv ex =
      (.err (.restartException e), (restartServer s renv).state) := by
  have hb := (restartServer_error_facts s renv e hres).2.2
  unfold spawn
  rw [hflag, if_pos rfl]
  dsimp only
  rw [hres]
  cases e with
  | ioError m => rfl
  | systemError m c => rfl
  | restartException c => exact absurd hb (by simp [SpawnErr.isBase])

/-! ### Helper lemmas: atoi and decimal numerals -/

theorem digit_not_space (c : Char) (h : c.isDigit = true) :
    isAsciiSpace c = false := by
  by_contra hs
  have hs' : isAsciiSpace c = true := by
    cases hb : isAsciiSpace c
    · exact absurd hb hs
    · rfl
  unfold isAsciiSpace at hs'
  simp only [Bool.or_eq_true, beq_iff_eq] at hs'
  rcases hs' with ((((h1 | h1) | h1) | h1) | h1) | h1 <;> subst h1 <;>
    exact absurd h (by decide)

theorem atoiLoop_digits (l : List Char) (acc : Int)
    (h : ∀ c ∈ l, c.isDigit = true) :
    atoiLoop l acc = l.foldl (fun a c => 10 * a + ((c.toNat : Int) - 48)) acc := by
  induction l generalizing acc with
  | nil => rfl
  | cons c rest ih =>
    have hc : c.isDigit = true := h c (List.mem_cons_self c rest)
    unfold atoiLoop
    rw [if_pos hc, List.foldl_cons]
    exact ih _ (fun d hd => h d (List.mem_cons_of_mem c hd))

theorem atoi_decimal (str : String) (h : isDecimalNumeral str = true) :
    atoi str = decimalValue str := by
  unfold isDecimalNumeral at h
  rw [Bool.and_eq_true] at h
  obtain ⟨hne, hall⟩ := h
  rw [List.all_eq_true] at hall
  unfold atoi decimalValue
  cases hl : str.toList with
  | nil => rfl
  | cons c rest =>
    have hcd : c.isDigit = true := hall c (by rw [hl]; exact List.mem_cons_self c rest)
    have hdrop : List.dropWhile isAsciiSpace (c :: rest) = c :: rest := by
      rw [List.dropWhile_cons, digit_not_space c hcd]
      simp
    rw [hl] at hall
    rw [hdrop]
    have hc1 : ¬ c = '-' := fun hc => by rw [hc] at hcd; exact absurd hcd (by decide)
    have hc2 : ¬ c = '+' := fun hc => by rw [hc] at hcd; exact absurd hcd (by decide)
    dsimp only
    rw [if_neg hc1, if_neg hc2]
    exact atoiLoop_digits (c :: rest) 0 (fun d hd => hall d (hl ▸ hd))

/-! ### Helper lemmas: the status-line extractor -/

theorem extractStatusLine_frame (e : HttpStatusExtractor) :
    (extractStatusLine e).2.buffer = e.buffer ∧
    (extractStatusLine e).2.searchStart = e.searchStart ∧
    (extractStatusLine e).2.fullHeaderReceived = e.fullHeaderReceived :=
  ⟨rfl, rfl, rfl⟩

theorem feed_true_fullHeader (e : HttpStatusExtractor) (d : List Char)
    (h : (feed e d).1 = true) : (feed e d).2.fullHeaderReceived = true := by
  unfold feed at h ⊢
  by_cases hb : e.fullHeaderReceived = true
  · rw [if_pos hb] at h ⊢
    exact hb
  · rw [if_neg hb] at h ⊢
    dsimp only at h ⊢
    rcases hm : feedLoop (e.buffer ++ d) e.searchStart with ⟨o, s'⟩
    cases o with
    | some pos => rfl
    | none =>
      try rw [hm] at h
      exact absurd h (by simp)

theorem feed_after_fullHeader (e : HttpStatusExtractor) (d : List Char)
    (h : e.fullHeaderReceived = true) : feed e d = (true, e) := by
  unfold feed
  rw [if_pos h]

/-! ### Concrete fixtures used by counterexamples and witnesses -/

/-- A supervisor state with a live helper (pid 7) bound to descriptor 3. -/
def sampleLive : SpawnManagerState :=
  { spawnServerCommand := "spawn_server", logFile := "", environment := "production",
    rubyCommand := "ruby", channel := some 3, pid := 7,
    serverNeedsRestart := false, openFds := [3] }

/-- A restart oracle that is never consulted (all calls fail). -/
def quietRenv : RestartEnv :=
  { socketpairResult := none, socketpairErrno := 0, fopenResult := none,
    forkResult := none, forkErrno := 0 }

/-- An exchange oracle answering `("4242")` with passed descriptor 9. -/
def okEx : Nat → ExchangeEnv := fun _ =>
  { writeError := none, readOutcome := .message ["4242"], fdOutcome := .ok 9 }

/-! ### Claim theorems -/

/-- C1: for every `spawn(rootPath, user, group)` call in which the request
is written successfully, the helper's response has a decimal numeral as
its first field, and exactly one descriptor is passed, `spawn` returns a
Worker Handle whose `rootPath` is the argument, whose `pid` is the
decimal value of the first field, and whose descriptor is the passed
one. -/
theorem spawn_success_handle
    (s : SpawnManagerState) (appRoot user group : String)
    (renv : RestartEnv) (ex : Nat → ExchangeEnv)
    (first : String) (rest : List String) (fd : Nat)
    (hres : s.serverNeedsRestart = true → (restartServer s renv).result = .ok ())
    (hw : (ex 0).writeError = none)
    (hr : (ex 0).readOutcome = .message (first :: rest))
    (hdec : isDecimalNumeral first = true)
    (hfd : (ex 0).fdOutcome = .ok fd) :
    (spawn s appRoot user group renv ex).1 =
      .ok { appRoot := appRoot, pid := decimalValue first, listenSocket := fd } := by
  cases hflag : s.serverNeedsRestart with
  | false =>
    rw [spawn_noRestart_eq s appRoot user group renv ex hflag,
        doExchange_ok_eq s appRoot user group first rest fd (ex 0) hw hr hfd]
    dsimp only
    rw [atoi_decimal first hdec]
  | true =>
    rw [spawn_restartOk_eq s appRoot user group renv ex hflag (hres hflag),
        doExchange_ok_eq _ appRoot user group first rest fd (ex 0) hw hr hfd]
    dsimp only
    rw [atoi_decimal first hdec]

/-- Witness for C1 at a concrete input: helper answers `("4242")` and
passes descriptor 9, so `spawn` returns the handle `(/app, 4242, 9)`. -/
theorem spawn_success_handle_witness :
    (spawn sampleLive "/app" "" "" quietRenv okEx).1 =
      .ok { appRoot := "/app", pid := 4242, listenSocket := 9 } := by
  have h := spawn_success_handle sampleLive "/app" "" "" quietRenv okEx
    "4242" [] 9 (fun hf => absurd hf (by decide)) (by decide) (by decide)
    (by decide) (by decide)
  exact h.trans (by decide)

/-- C2: any failure during the request/response exchange (write, read,
clean close, passed-descriptor retrieval) sets `serverNeedsRestart`
before the error propagates; the failing call performs no second
exchange — the result depends only on the first exchange oracle. -/
theorem spawn_exchange_failure_flags
    (s : SpawnManagerState) (appRoot user group : String)
    (renv : RestartEnv) (f g : Nat → ExchangeEnv) (env : ExchangeEnv) :
    (∀ e, (doExchange s appRoot user group env).1 = .err e →
      (doExchange s appRoot user group env).2.serverNeedsRestart = true) ∧
    (∀ e, (spawn s appRoot user group renv f).1 = .err e →
      (spawn s appRoot user group renv f).2.serverNeedsRestart = true) ∧
    (f 0 = g 0 → spawn s appRoot user group renv f = spawn s appRoot user group renv g) := by
  refine ⟨fun e h => doExchange_err_flag s appRoot user group env e h,
    fun e h => ?_, fun hfg => ?_⟩
  · cases hflag : s.serverNeedsRestart with
    | false =>
      rw [spawn_noRestart_eq s appRoot user group renv f hflag] at h ⊢
      exact doExchange_err_flag s appRoot user group (f 0) e h
    | true =>
      cases hres : (restartServer s renv).result with
      | ok u =>
        cases u
        rw [spawn_restartOk_eq s appRoot user group renv f hflag hres] at h ⊢
        exact doExchange_err_flag _ appRoot user group (f 0) e h
      | error e' =>
        rw [spawn_restartErr_eq s appRoot user group renv f e' hflag hres]
        exact (restartServer_error_facts s renv e' hres).1
  · unfold spawn
    rw [hfg]

/-- Witness for C2 at a concrete input: a clean peer close makes the
exchange fail and leaves the restart flag set. -/
theorem spawn_exchange_failure_flags_witness :
    (spawn sampleLive "/app" "" "" quietRenv
      (fun _ => { writeError := none, readOutcome := .endOfStream,
                  fdOutcome := .ok 9 })).2.serverNeedsRestart = true := by
  have h := (spawn_exchange_failure_flags sampleLive "/app" "" "" quietRenv
    (fun _ => { writeError := none, readOutcome := .endOfStream, fdOutcome := .ok 9 })
    (fun _ => { writeError := none, readOutcome := .endOfStream, fdOutcome := .ok 9 })
    { writeError := none, readOutcome := .endOfStream, fdOutcome := .ok 9 }).2.1
  exact h (.ioError "The spawn server has exited unexpectedly.") (by decide)

/-- C3: a `spawn` call entered with the restart flag set whose restart
fails with a setup or I/O error throws a `RestartException` wrapping
that error (retrievable through `getSubException`, and distinct from the
raw error), and the flag is still set afterwards, so the next call
retries the restart. -/
theorem spawn_restart_failure_wrapper
    (s : SpawnManagerState) (appRoot user group : String)
    (renv : RestartEnv) (ex : Nat → ExchangeEnv) (e : SpawnErr)
    (hflag : s.serverNeedsRestart = true)
    (hres : (restartServer s renv).result = .error e) :
    (spawn s appRoot user group renv ex).1 = .err (.restartException e) ∧
    (SpawnErr.restartException e).getSubException = some e ∧
    SpawnErr.restartException e ≠ e ∧
    (spawn s appRoot user group renv ex).2.serverNeedsRestart = true := by
  rw [spawn_restartErr_eq s appRoot user group renv ex e hflag hres]
  exact ⟨rfl, rfl, restartException_ne e, (restartServer_error_facts s renv e hres).1⟩

/-- Witness for C3 at a concrete input: socket-pair creation fails with
errno 13, and `spawn` throws the wrapper around that `SystemException`. -/
theorem spawn_restart_failure_wrapper_witness :
    (spawn { sampleLive with serverNeedsRestart := true } "/app" "" ""
      { quietRenv with socketpairErrno := 13 } okEx).1 =
      .err (.restartException (.systemError "Cannot create a Unix socket" 13)) := by
  have h := spawn_restart_failure_wrapper { sampleLive with serverNeedsRestart := true }
    "/app" "" "" { quietRenv with socketpairErrno := 13 } okEx
    (.systemError "Cannot create a Unix socket" 13) (by decide) (by decide)
  exact h.1

/-- C6: when the helper's side of the channel closes cleanly before any
response arrives, `spawn` fails with the transport error "The spawn
server has exited unexpectedly." — an `IOException`, distinct from any
`SystemException` I/O fault. -/
theorem spawn_helper_exit_eof
    (s : SpawnManagerState) (appRoot user group : String)
    (renv : RestartEnv) (ex : Nat → ExchangeEnv)
    (hres : s.serverNeedsRestart = true → (restartServer s renv).result = .ok ())
    (hw : (ex 0).writeError = none)
    (hr : (ex 0).readOutcome = .endOfStream) :
    (spawn s appRoot user group renv ex).1 =
      .err (.ioError "The spawn server has exited unexpectedly.") ∧
    (∀ m c, SpawnErr.ioError "The spawn server has exited unexpectedly." ≠
      .systemError m c) := by
  constructor
  · cases hflag : s.serverNeedsRestart with
    | false =>
      rw [spawn_noRestart_eq s appRoot user group renv ex hflag,
          doExchange_eof_eq s appRoot user group (ex 0) hw hr]
    | true =>
      rw [spawn_restartOk_eq s appRoot user group renv ex hflag (hres hflag),
          doExchange_eof_eq _ appRoot user group (ex 0) hw hr]
  · intro m c hc
    exact SpawnErr.noConfusion hc

/-- Witness for C6 at a concrete input. -/
theorem spawn_helper_exit_eof_witness :
    (spawn sampleLive "/app" "" "" quietRenv
      (fun _ => { writeError := none, readOutcome := .endOfStream,
                  fdOutcome := .error (.ioError "no descriptor") })).1 =
      .err (.ioError "The spawn server has exited unexpectedly.") := by
  have h := spawn_helper_exit_eof sampleLive "/app" "" "" quietRenv
    (fun _ => { writeError := none, readOutcome := .endOfStream,
                fdOutcome := .error (.ioError "no descriptor") })
    (fun hf => absurd hf (by decide)) (by decide) (by decide)
  exact h.1

/-- A supervisor state configured with a log file, no helper yet. -/
def logConfigured : SpawnManagerState :=
  { spawnServerCommand := "spawn_server", logFile := "server.log", environment := "",
    rubyCommand := "ruby", channel := none, pid := 0,
    serverNeedsRestart := false, openFds := [] }

/-- A restart oracle whose `fopen` fails after `socketpair` returned
descriptors 3 and 4. -/
def fopenFailEnv : RestartEnv :=
  { socketpairResult := some (3, 4), socketpairErrno := 0, fopenResult := none,
    forkResult := some 42, forkErrno := 0 }

/-- C4 counterexample: on the log-open-failure exit of `restartServer`,
the two socket-pair descriptors (3 and 4) were opened transiently by the
call, are not handed to the channel, and are still open when the
`IOException` propagates — the claim's closure property fails on this
exit path. -/
theorem restart_log_open_leak :
    3 ∈ restartTransients logConfigured fopenFailEnv ∧
    4 ∈ restartTransients logConfigured fopenFailEnv ∧
    (restartServer logConfigured fopenFailEnv).result =
      .error (.ioError "Cannot open log file 'server.log' for writing.") ∧
    3 ∈ (restartServer logConfigured fopenFailEnv).state.openFds ∧
    4 ∈ (restartServer logConfigured fopenFailEnv).state.openFds ∧
    (restartServer logConfigured fopenFailEnv).state.channel ≠ some 3 ∧
    (restartServer logConfigured fopenFailEnv).state.channel ≠ some 4 := by
  refine ⟨by decide, by decide, by decide, by decide, by decide, by decide, by decide⟩

/-- C4 (amended): on every exit path of `restartServer` other than the
log-open-failure one — that is, whenever no log file is configured or
`fopen` succeeds — every transiently opened descriptor that is still
open on exit is exactly the one handed to the channel. -/
theorem restart_transients_closed (s : SpawnManagerState) (env : RestartEnv)
    (hlog : s.logFile = "" ∨ env.fopenResult ≠ none) :
    ∀ fd ∈ restartTransients s env,
      fd ∈ (restartServer s env).state.openFds →
      (restartServer s env).state.channel = some fd := by
  intro fd hfd hmem
  unfold restartTransients at hfd
  cases hsp : env.socketpairResult with
  | none =>
    rw [hsp] at hfd
    simp at hfd
  | some p =>
    obtain ⟨fd0, fd1⟩ := p
    rw [hsp] at hfd
    dsimp only at hfd
    unfold restartServer at hmem ⊢
    try rw [hsp] at hmem
    try rw [hsp]
    unfold logPhase at hmem ⊢
    dsimp only at hmem ⊢
    rw [reapStep_logFile] at hmem ⊢
    by_cases hl : s.logFile = ""
    · rw [if_neg (fun hc => hc hl)] at hfd hmem ⊢
      simp only [List.mem_cons, List.not_mem_nil, or_false] at hfd
      refine forkPhase_transients _ fd0 fd1 none env ?_ fd ?_ hmem
      · exact fun h hh => Option.noConfusion hh
      · rcases hfd with rfl | rfl
        · exact Or.inl rfl
        · exact Or.inr (Or.inl rfl)
    · rcases hlog with hlog | hlog
      · exact absurd hlog hl
      · obtain ⟨h', hfo⟩ := Option.ne_none_iff_exists'.mp hlog
        rw [if_pos hl] at hfd hmem ⊢
        rw [hfo] at hfd hmem ⊢
        simp only [List.mem_cons, List.not_mem_nil, or_false] at hfd
        refine forkPhase_transients _ fd0 fd1 (some h') env ?_ fd ?_ hmem
        · exact fun h hh => hl
        · rcases hfd with rfl | rfl | rfl
          · exact Or.inl rfl
          · exact Or.inr (Or.inl rfl)
          · exact Or.inr (Or.inr rfl)

/-- Witness for the amended C4 at a concrete input: on the successful
path the only transient descriptor still open is 3, and the channel is
bound to it. -/
theorem restart_transients_closed_witness :
    (restartServer logConfigured { fopenFailEnv with fopenResult := some 5 }).state.channel
      = some 3 := by
  exact restart_transients_closed logConfigured
    { fopenFailEnv with fopenResult := some 5 }
    (Or.inr (by decide)) 3 (by decide) (by decide)

/-- An exchange oracle whose response's first field is not a decimal
numeral. -/
def malformedEx : Nat → ExchangeEnv := fun _ =>
  { writeError := none, readOutcome := .message ["x"], fdOutcome := .ok 9 }

/-- C5 counterexample: a response whose first field is `"x"` (not a
decimal process id) does not make `spawn` fail — `atoi` yields 0 and
`spawn` returns a Worker Handle with pid 0, leaving the restart flag
clear. -/
theorem spawn_malformed_accepted :
    (spawn sampleLive "/app" "" "" quietRenv malformedEx).1 =
      .ok { appRoot := "/app", pid := 0, listenSocket := 9 } ∧
    (spawn sampleLive "/app" "" "" quietRenv malformedEx).2.serverNeedsRestart = false := by
  exact ⟨by decide, by decide⟩

/-- C5 (amended): when a response message is received, a present first
field is converted with C `atoi` semantics — malformed text yields pid 0
and a Worker Handle is still returned when a descriptor was passed —
and a missing first field is undefined behaviour (`front()` on an empty
vector), not a transport error. -/
theorem spawn_first_field_atoi
    (s : SpawnManagerState) (appRoot user group : String)
    (renv : RestartEnv) (ex : Nat → ExchangeEnv)
    (hres : s.serverNeedsRestart = true → (restartServer s renv).result = .ok ())
    (hw : (ex 0).writeError = none) :
    (∀ first rest fd, (ex 0).readOutcome = .message (first :: rest) →
      (ex 0).fdOutcome = .ok fd →
      (spawn s appRoot user group renv ex).1 =
        .ok { appRoot := appRoot, pid := atoi first, listenSocket := fd }) ∧
    ((ex 0).readOutcome = .message [] →
      (spawn s appRoot user group renv ex).1 = .undefinedFront) := by
  constructor
  · intro first rest fd hr hfd
    cases hflag : s.serverNeedsRestart with
    | false =>
      rw [spawn_noRestart_eq s appRoot user group renv ex hflag,
          doExchange_ok_eq s appRoot user group first rest fd (ex 0) hw hr hfd]
    | true =>
      rw [spawn_restartOk_eq s appRoot user group renv ex hflag (hres hflag),
          doExchange_ok_eq _ appRoot user group first rest fd (ex 0) hw hr hfd]
  · intro hr
    cases hflag : s.serverNeedsRestart with
    | false =>
      rw [spawn_noRestart_eq s appRoot user group renv ex hflag,
          doExchange_empty_eq s appRoot user group (ex 0) hw hr]
    | true =>
      rw [spawn_restartOk_eq s appRoot user group renv ex hflag (hres hflag),
          doExchange_empty_eq _ appRoot user group (ex 0) hw hr]

/-- Witness for the amended C5 at a concrete input: field `"x"` gives
pid `atoi "x" = 0`. -/
theorem spawn_first_field_atoi_witness :
    (spawn sampleLive "/app" "" "" quietRenv malformedEx).1 =
      .ok { appRoot := "/app", pid := atoi "x", listenSocket := 9 } := by
  exact (spawn_first_field_atoi sampleLive "/app" "" "" quietRenv malformedEx
    (fun hf => absurd hf (by decide)) (by decide)).1 "x" [] 9 (by decide) (by decide)

/-- C7: with a non-empty log file path, if `fopen` fails then
`restartServer` throws the `IOException` naming the log file, and no
child process is created — the failure precedes the fork. -/
theorem restart_log_open_io_error
    (s : SpawnManagerState) (env : RestartEnv) (fd0 fd1 : Nat)
    (hlog : s.logFile ≠ "")
    (hsp : env.socketpairResult = some (fd0, fd1))
    (hfo : env.fopenResult = none) :
    (restartServer s env).result =
      .error (.ioError ("Cannot open log file '" ++ s.logFile ++ "' for writing.")) ∧
    (restartServer s env).childCreated = false := by
  unfold restartServer
  try rw [hsp]
  unfold logPhase
  dsimp only
  rw [reapStep_logFile]
  rw [if_pos hlog]
  try rw [hfo]
  exact ⟨rfl, rfl⟩

/-- Witness for C7 at a concrete input. -/
theorem restart_log_open_io_error_witness :
    (restartServer logConfigured fopenFailEnv).childCreated = false := by
  exact (restart_log_open_io_error logConfigured fopenFailEnv 3 4
    (by decide) (by decide) (by decide)).2

theorem forkPhase_fail_result (s : SpawnManagerState) (fd0 fd1 : Nat)
    (lh : Option Nat) (env : RestartEnv) (hf : env.forkResult = none) :
    (forkPhase s fd0 fd1 lh env).result =
      .error (.systemError "Unable to fork a process" env.forkErrno) ∧
    (forkPhase s fd0 fd1 lh env).state.pid = 0 ∧
    (forkPhase s fd0 fd1 lh env).state.serverNeedsRestart = s.serverNeedsRestart := by
  unfold forkPhase
  try rw [hf]
  cases lh <;> exact ⟨rfl, rfl, rfl⟩

/-- C8: if socket-pair creation fails, or the fork fails (with the log
file step passed), `restartServer` throws a setup error
(`SystemException`), the state afterwards has no helper pid and the
restart flag still set; on the fork-failure path both socket-pair
descriptors and the log file handle are closed before the error
propagates. -/
theorem restart_setup_failure_paths (s : SpawnManagerState) (env : RestartEnv) :
    (env.socketpairResult = none →
      (restartServer s env).result =
        .error (.systemError "Cannot create a Unix socket" env.socketpairErrno) ∧
      (restartServer s env).state.pid = 0 ∧
      (restartServer s env).state.serverNeedsRestart = true) ∧
    (∀ fd0 fd1, env.socketpairResult = some (fd0, fd1) →
      (s.logFile = "" ∨ env.fopenResult ≠ none) →
      env.forkResult = none →
      (restartServer s env).result =
        .error (.systemError "Unable to fork a process" env.forkErrno) ∧
      (restartServer s env).state.pid = 0 ∧
      (restartServer s env).state.serverNeedsRestart = true ∧
      fd0 ∉ (restartServer s env).state.openFds ∧
      fd1 ∉ (restartServer s env).state.openFds ∧
      (∀ h, s.logFile ≠ "" → env.fopenResult = some h →
        h ∉ (restartServer s env).state.openFds)) := by
  constructor
  · intro hsp
    unfold restartServer
    try rw [hsp]
    exact ⟨rfl, reapStep_pid s, rfl⟩
  · intro fd0 fd1 hsp hlog hfk
    unfold restartServer
    try rw [hsp]
    unfold logPhase
    dsimp only
    rw [reapStep_logFile]
    by_cases hl : s.logFile = ""
    · rw [if_neg (fun hc => hc hl)]
      obtain ⟨hres, hp, hfl⟩ := forkPhase_fail_result _ fd0 fd1 none env hfk
      obtain ⟨h0, h1, -⟩ := forkPhase_fail_closed _ fd0 fd1 none env hfk
      exact ⟨hres, hp, hfl, h0, h1, fun h hlne _ => absurd hl hlne⟩
    · rcases hlog with hlog | hlog
      · exact absurd hlog hl
      · obtain ⟨h', hfo⟩ := Option.ne_none_iff_exists'.mp hlog
        rw [if_pos hl]
        rw [hfo]
        obtain ⟨hres, hp, hfl⟩ := forkPhase_fail_result _ fd0 fd1 (some h') env hfk
        obtain ⟨h0, h1, hlh⟩ := forkPhase_fail_closed _ fd0 fd1 (some h') env hfk
        refine ⟨hres, hp, hfl, h0, h1, fun h hlne hfo2 => ?_⟩
        have hhh : h' = h := Option.some.inj hfo2
        rw [← hhh]
        exact hlh h' rfl

/-- Witness for C8 at a concrete input: socket-pair failure, and a
fork failure with descriptors 3, 4 and log handle 5 all closed. -/
theorem restart_setup_failure_paths_witness :
    (restartServer sampleLive quietRenv).result =
      .error (.systemError "Cannot create a Unix socket" 0) ∧
    3 ∉ (restartServer logConfigured
      { fopenFailEnv with fopenResult := some 5, forkResult := none }).state.openFds ∧
    5 ∉ (restartServer logConfigured
      { fopenFailEnv with fopenResult := some 5, forkResult := none }).state.openFds := by
  refine ⟨((restart_setup_failure_paths sampleLive quietRenv).1 (by decide)).1, ?_, ?_⟩
  · exact ((restart_setup_failure_paths logConfigured
      { fopenFailEnv with fopenResult := some 5, forkResult := none }).2
      3 4 (by decide) (Or.inr (by decide)) (by decide)).2.2.2.1
  · exact ((restart_setup_failure_paths logConfigured
      { fopenFailEnv with fopenResult := some 5, forkResult := none }).2
      3 4 (by decide) (Or.inr (by decide)) (by decide)).2.2.2.2.2 5 (by decide) (by decide)

/-- C9 counterexample: teardown (the destructor) closes the channel but
does not clear the pid member, so its final state violates the
`helperPid == none iff channel unbound` invariant: from the live state
(pid 7, channel bound to 3) the invariant holds before and fails after
`destroy`. -/
theorem destroy_breaks_invariant :
    invariant sampleLive ∧ ¬ invariant (SpawnManager.destroy sampleLive) := by
  constructor
  · show sampleLive.pid = 0 ↔ sampleLive.channel = none
    decide
  · show ¬ ((SpawnManager.destroy sampleLive).pid = 0 ↔
      (SpawnManager.destroy sampleLive).channel = none)
    decide

/-- C9 (amended): the invariant `helperPid == none iff channel unbound`
is established by construction and preserved by `restartServer` and
`spawn`, success or failure (given `fork` reports a nonzero child pid);
teardown closes the channel but leaves the pid member unchanged, so the
invariant does not survive the destructor's final (already destroyed)
state when a helper was tracked. -/
theorem supervisor_invariant_preservation
    (cmd lf en rb : String) (renvC renv renvS : RestartEnv)
    (s : SpawnManagerState) (appRoot user group : String) (ex : Nat → ExchangeEnv) :
    (renvC.forkResult ≠ some 0 →
      invariant (SpawnManager.create cmd lf en rb renvC).state) ∧
    (invariant s → renv.forkResult ≠ some 0 →
      invariant (restartServer s renv).state) ∧
    (invariant s → renvS.forkResult ≠ some 0 →
      invariant (spawn s appRoot user group renvS ex).2) ∧
    (invariant s →
      (SpawnManager.destroy s).channel = none ∧
      (SpawnManager.destroy s).pid = s.pid) := by
  refine ⟨fun hwf => ?_, fun hinv hwf => restartServer_invariant s renv hinv hwf,
    fun hinv hwf => ?_, fun hinv => ?_⟩
  · unfold SpawnManager.create
    exact restartServer_invariant _ renvC ⟨fun _ => rfl, fun _ => rfl⟩ hwf
  · cases hflag : s.serverNeedsRestart with
    | false =>
      rw [spawn_noRestart_eq s appRoot user group renvS ex hflag]
      obtain ⟨hp, hc⟩ := doExchange_pid_channel s appRoot user group (ex 0)
      unfold invariant at hinv ⊢
      rw [hp, hc]
      exact hinv
    | true =>
      cases hres : (restartServer s renvS).result with
      | error e =>
        rw [spawn_restartErr_eq s appRoot user group renvS ex e hflag hres]
        exact restartServer_invariant s renvS hinv hwf
      | ok u =>
        cases u
        rw [spawn_restartOk_eq s appRoot user group renvS ex hflag hres]
        obtain ⟨hp, hc⟩ :=
          doExchange_pid_channel (restartServer s renvS).state appRoot user group (ex 0)
        have hri := restartServer_invariant s renvS hinv hwf
        unfold invariant at hri ⊢
        rw [hp, hc]
        exact hri
  · unfold SpawnManager.destroy
    split
    · next hp =>
      unfold SpawnManagerState.closeChannel
      cases hch : s.channel with
      | none => exact ⟨hch, rfl⟩
      | some fd => exact ⟨rfl, rfl⟩
    · next hp =>
      have hp0 : s.pid = 0 := by omega
      exact ⟨hinv.mp hp0, rfl⟩

/-- Witness for the amended C9 at a concrete input: a successful
construction satisfies the invariant. -/
theorem supervisor_invariant_preservation_witness :
    invariant (SpawnManager.create "spawn_server" "" "production" "ruby"
      { socketpairResult := some (3, 4), socketpairErrno := 0, fopenResult := none,
        forkResult := some 42, forkErrno := 0 }).state := by
  exact (supervisor_invariant_preservation "spawn_server" "" "production" "ruby"
    { socketpairResult := some (3, 4), socketpairErrno := 0, fopenResult := none,
      forkResult := some 42, forkErrno := 0 } quietRenv quietRenv sampleLive
    "/app" "" "" okEx).1 (by decide)

/-- C10: once `feed` has returned `true` (the CR LF CR LF terminator was
seen), every later `feed` call returns `true` and leaves both the
buffer and the status line unchanged — data fed after that point is
discarded, not appended. -/
theorem feed_after_complete (e : HttpStatusExtractor) (d d' : List Char)
    (h : (feed e d).1 = true) :
    feed (feed e d).2 d' = (true, (feed e d).2) ∧
    (feed (feed e d).2 d').2.getBuffer = (feed e d).2.getBuffer ∧
    (feed (feed e d).2 d').2.getStatusLine = (feed e d).2.getStatusLine := by
  have hf := feed_true_fullHeader e d h
  have heq := feed_after_fullHeader (feed e d).2 d' hf
  rw [heq]
  exact ⟨rfl, rfl, rfl⟩

/-- Witness for C10 at a concrete input: after feeding the bare header
terminator, feeding body data returns `true` and changes nothing. -/
theorem feed_after_complete_witness :
    (feed HttpStatusExtractor.init "\r\n\r\n".toList).1 = true ∧
    feed (feed HttpStatusExtractor.init "\r\n\r\n".toList).2 "body".toList =
      (true, (feed HttpStatusExtractor.init "\r\n\r\n".toList).2) :=
  ⟨by decide, (feed_after_complete HttpStatusExtractor.init "\r\n\r\n".toList
      "body".toList (by decide)).1⟩

end Passenger
